import Mathlib

/-!
Verification development for the Career-Navigator front-end.

The code under scrutiny is a React client with three presentation
components: `ResumeUpload` (upload panel), `JobList` (match list) and
`RoadmapDialog` (roadmap panel).  Each component's rendering logic and
query configuration is embedded below as executable Lean functions,
translated from the TypeScript sources:
  - src/client/src/components/RoadmapDialog.tsx  (roadmap panel)
  - the ResumeUpload component                    (upload panel)
  - the JobList component                         (match list)
JavaScript truthiness of strings, `undefined`/non-array JSON fields, and
the `x || fallback` idiom are made explicit in the embedding.
-/

namespace CareerNavigator

/-- A JSON field of a backend response as the rendering code observes it:
entirely absent (or otherwise falsy, e.g. `undefined`/`null`), present but
not an array (`Array.isArray` fails), or an actual array of elements. -/
inductive JsField (α : Type) where
  | absent : JsField α
  | malformed : JsField α
  | arr : List α → JsField α
deriving DecidableEq, Repr

/-- The rendered output of one section of the roadmap panel: either a named
textual placeholder or a list of rendered items. -/
inductive SectionView (α : Type) where
  | placeholder : String → SectionView α
  | items : List α → SectionView α
deriving DecidableEq, Repr

/-- JavaScript string truthiness: the empty string is falsy, every other
string truthy; models the `!!s` coercion applied to a `string` value. -/
def jsTruthyString (s : String) : Bool := !(s == "")

/-- The `s || fallback` idiom on strings: the fallback replaces a falsy
(empty) string. -/
def jsOrElse (s fallback : String) : String :=
  if s == "" then fallback else s

/-- JavaScript `String.prototype.startsWith`: the characters of the search
string occur at the very start of the receiver.  (Lean's built-in
`String.startsWith` is not kernel-reducible, so the same function is
written on the underlying character lists.) -/
def strStartsWith (s p : String) : Bool := p.data.isPrefixOf s.data

/-- One learning-path phase as received from the backend; `tasks` is itself
a nested field that the dialog checks for array-ness before iterating. -/
structure LearningStep where
  title : String
  duration : String
  tasks : JsField String
deriving DecidableEq, Repr

/-- One suggested project as received from the backend. -/
structure Project where
  title : String
  description : String
deriving DecidableEq, Repr

/-- The roadmap response body, each of the four sections a `JsField` so that
absence and malformation are representable. -/
structure RoadmapData where
  skills_gap : JsField String
  learning_path : JsField LearningStep
  certifications : JsField String
  projects : JsField Project
deriving DecidableEq, Repr

/-- A rendered skill-gap entry: its displayed text and its MUI color token.
From RoadmapDialog.tsx: text is `skill || 'Unknown skill'`, color is
`skill?.startsWith?.('Required:') ? 'error.main' : 'info.main'`. -/
structure SkillEntry where
  text : String
  color : String
deriving DecidableEq, Repr

def renderSkillEntry (skill : String) : SkillEntry :=
  { text := jsOrElse skill "Unknown skill"
    color := if strStartsWith skill "Required:" then "error.main" else "info.main" }

/-- Skills Gap Analysis section of RoadmapDialog.tsx: the guard is
`roadmap.skills_gap && Array.isArray(roadmap.skills_gap) && roadmap.skills_gap.length > 0`;
any failing conjunct yields the placeholder. -/
def renderSkillsGapSection : JsField String → SectionView SkillEntry
  | JsField.arr xs =>
      if 0 < xs.length then SectionView.items (xs.map renderSkillEntry)
      else SectionView.placeholder "No skills gap data available"
  | _ => SectionView.placeholder "No skills gap data available"

/-- A rendered learning-path step.  Fallback texts are those of
RoadmapDialog.tsx; the nested `tasks` field is checked for array-ness but,
unlike the four top-level sections, not for nonemptiness. -/
structure StepView where
  title : String
  duration : String
  tasks : SectionView String
deriving DecidableEq, Repr

def renderLearningStep (index : Nat) (s : LearningStep) : StepView :=
  { title := jsOrElse s.title ("Phase " ++ toString (index + 1))
    duration := jsOrElse s.duration "Duration not specified"
    tasks :=
      match s.tasks with
      | JsField.arr ts =>
          SectionView.items (ts.map (fun t => jsOrElse t "Task not specified"))
      | _ => SectionView.placeholder "No tasks defined for this phase" }

/-- Learning Path section of RoadmapDialog.tsx, with the same triple guard
as the other sections. -/
def renderLearningPathSection : JsField LearningStep → SectionView StepView
  | JsField.arr xs =>
      if 0 < xs.length then SectionView.items (xs.mapIdx renderLearningStep)
      else SectionView.placeholder "No learning path data available"
  | _ => SectionView.placeholder "No learning path data available"

/-- Recommended Certifications section of RoadmapDialog.tsx: each entry is
rendered as `cert || 'Certification not specified'`. -/
def renderCertificationsSection : JsField String → SectionView String
  | JsField.arr xs =>
      if 0 < xs.length then
        SectionView.items (xs.map (fun c => jsOrElse c "Certification not specified"))
      else SectionView.placeholder "No certification recommendations available"
  | _ => SectionView.placeholder "No certification recommendations available"

/-- A rendered project suggestion with the fallbacks of RoadmapDialog.tsx. -/
structure ProjectView where
  title : String
  description : String
deriving DecidableEq, Repr

def renderProject (index : Nat) (p : Project) : ProjectView :=
  { title := jsOrElse p.title ("Project " ++ toString (index + 1))
    description := jsOrElse p.description "Project description not available" }

/-- Suggested Projects section of RoadmapDialog.tsx. -/
def renderProjectsSection : JsField Project → SectionView ProjectView
  | JsField.arr xs =>
      if 0 < xs.length then SectionView.items (xs.mapIdx renderProject)
      else SectionView.placeholder "No project suggestions available"
  | _ => SectionView.placeholder "No project suggestions available"

/-- The success view of the roadmap dialog: four independently rendered
sections. -/
structure RoadmapView where
  skillsGapView : SectionView SkillEntry
  learningPathView : SectionView StepView
  certificationsView : SectionView String
  projectsView : SectionView ProjectView
deriving DecidableEq, Repr

/-- Rendering of the roadmap success view, directly from the JSX of
RoadmapDialog.tsx: each section is computed from its own field alone. -/
def renderRoadmap (r : RoadmapData) : RoadmapView :=
  { skillsGapView := renderSkillsGapSection r.skills_gap
    learningPathView := renderLearningPathSection r.learning_path
    certificationsView := renderCertificationsSection r.certifications
    projectsView := renderProjectsSection r.projects }

/-- The roadmap query key from RoadmapDialog.tsx:
`queryKey: ['roadmap', resumeId, jobTitle]`. -/
def roadmapQueryKey (resumeId jobTitle : String) : List String :=
  ["roadmap", resumeId, jobTitle]

/-- The roadmap query freshness window from RoadmapDialog.tsx, in
milliseconds: `staleTime: 5 * 60 * 1000`. -/
def roadmapStaleTime : Nat := 5 * 60 * 1000

/-- The roadmap query retry count from RoadmapDialog.tsx: `retry: 2`. -/
def roadmapRetryCount : Nat := 2

/-- The roadmap query enablement from RoadmapDialog.tsx:
`enabled: open && !!resumeId && !!jobTitle`. -/
def roadmapEnabled (dialogOpen : Bool) (resumeId jobTitle : String) : Bool :=
  dialogOpen && jsTruthyString resumeId && jsTruthyString jobTitle

/-- One cached query result of the request-cache library: its key and the
time (ms) at which its data was fetched. -/
structure CacheEntry where
  key : List String
  fetchedAt : Nat
deriving DecidableEq, Repr

/-- Modelled from the spec: the client-side query cache is "the client-side
store of in-flight/completed request results, keyed by request identity";
lookup finds the entry stored under a key. -/
def cacheLookup (cache : List CacheEntry) (k : List String) : Option CacheEntry :=
  cache.find? (fun e => e.key == k)

/-- Modelled from the spec: a cached result is fresh while its age is within
the configured freshness window ("its result is cached for five minutes
... so reopening the same roadmap within that window does not re-trigger
generation"). -/
def isFresh (e : CacheEntry) (now : Nat) : Bool :=
  now < e.fetchedAt + roadmapStaleTime

/-- Modelled from the spec: the request-cache library issues a network fetch
for a key exactly when the query is enabled and no fresh cached result
exists under that key. -/
def issuesFetch (cache : List CacheEntry) (k : List String) (enabled : Bool)
    (now : Nat) : Bool :=
  enabled &&
    (match cacheLookup cache k with
     | some e => !(isFresh e now)
     | none => true)

/-- The roadmap query lifecycle states the dialog distinguishes. -/
inductive RoadmapQueryState where
  | loading : RoadmapQueryState
  | failed : RoadmapQueryState
  | success : RoadmapData → RoadmapQueryState
deriving DecidableEq, Repr

/-- `isLoading` as destructured from the roadmap query result. -/
def roadmapIsLoading : RoadmapQueryState → Bool
  | RoadmapQueryState.loading => true
  | _ => false

/-- The DialogActions Close button of RoadmapDialog.tsx:
`disabled={isLoading}`. -/
def closeButtonDisabled (q : RoadmapQueryState) : Bool :=
  roadmapIsLoading q

/-- A job match as returned by the job-matching endpoint; the score is a
JSON number, modelled as a rational. -/
structure Job where
  job_id : String
  title : String
  company : String
  score : ℚ
  match_percentage : String
deriving DecidableEq, Repr

/-- A rendered job card: the determinate progress indicator value and the
percentage text, from the JobList component:
`value={job.score * 100}` and `{job.match_percentage}`. -/
structure JobCard where
  title : String
  company : String
  progressValue : ℚ
  percentText : String
deriving DecidableEq, Repr

def renderJobCard (j : Job) : JobCard :=
  { title := j.title
    company := j.company
    progressValue := j.score * 100
    percentText := j.match_percentage }

/-- JavaScript truthiness of a nullable string (`string | null`): `null`
and the empty string are falsy. -/
def optStringTruthy : Option String → Bool
  | none => false
  | some s => jsTruthyString s

/-- The match-list query enablement from the JobList component:
`enabled: !!resumeId` with `resumeId : string | null`. -/
def jobListEnabled (resumeId : Option String) : Bool :=
  optStringTruthy resumeId

/-- The match-list query lifecycle states JobList distinguishes. -/
inductive JobsQueryState where
  | loading : JobsQueryState
  | failed : JobsQueryState
  | success : List Job → JobsQueryState
deriving DecidableEq, Repr

/-- What the JobList component renders. -/
inductive JobListView where
  | nothingView : JobListView
  | loadingView : JobListView
  | errorView : JobListView
  | noMatchesView : JobListView
  | cardsView : List JobCard → JobListView
deriving DecidableEq, Repr

/-- Rendering of the JobList component: `if (!resumeId) return null`, then
the loading/error branches, then `jobs?.length === 0` selects the
"No matching jobs found" message, otherwise one card per match. -/
def renderJobList (resumeId : Option String) (q : JobsQueryState) : JobListView :=
  if optStringTruthy resumeId then
    match q with
    | JobsQueryState.loading => JobListView.loadingView
    | JobsQueryState.failed => JobListView.errorView
    | JobsQueryState.success jobs =>
        if jobs.length == 0 then JobListView.noMatchesView
        else JobListView.cardsView (jobs.map renderJobCard)
  else JobListView.nothingView

/-- The number of job cards a JobList view contains. -/
def cardCount : JobListView → Nat
  | JobListView.cardsView cs => cs.length
  | _ => 0

/-- A locally selected file (only its identity matters to the upload
logic; a present `File` object is always truthy in JavaScript). -/
structure JsFile where
  name : String
deriving DecidableEq, Repr

/-- The multipart request the upload handler builds:
`formData.append('file', file)`. -/
structure UploadRequest where
  field : String
  file : JsFile
deriving DecidableEq, Repr

/-- `handleUpload` of the ResumeUpload component: `if (!file) return`,
otherwise build the form data and trigger the mutation.  The returned
`Option` is the request handed to the mutation, `none` meaning no network
request is issued. -/
def handleUpload : Option JsFile → Option UploadRequest
  | none => none
  | some f => some { field := "file", file := f }

/-- The submit button of the ResumeUpload component:
`disabled={!file || uploadMutation.isPending}`. -/
def uploadButtonDisabled (file : Option JsFile) (isPending : Bool) : Bool :=
  !(file.isSome) || isPending

/-- The body of a successful upload response, carrying the resume
identifier. -/
structure UploadSuccessData where
  id : String
deriving DecidableEq, Repr

/-- The observable effects the upload `onSuccess` handler can perform. -/
inductive UploadEffect where
  | invalidateQueries : List String → UploadEffect
  | uploadSuccessCallback : String → UploadEffect
deriving DecidableEq, Repr

/-- The `onSuccess` handler of the upload mutation, as the ordered list of
effects it performs: `queryClient.invalidateQueries({queryKey: ['resume']})`
then `onUploadSuccess(data.id)`. -/
def uploadOnSuccess (data : UploadSuccessData) : List UploadEffect :=
  [UploadEffect.invalidateQueries ["resume"],
   UploadEffect.uploadSuccessCallback data.id]

/-- The sequence of `onUploadSuccess` callback invocations contained in a
list of effects, with their argument. -/
def callbackInvocations (effects : List UploadEffect) : List String :=
  effects.filterMap (fun e =>
    match e with
    | UploadEffect.uploadSuccessCallback i => some i
    | _ => none)

end CareerNavigator

namespace CareerNavigator

/-- C1: a roadmap response whose certifications field is absent — and more
generally any absent or non-array section field — renders the named
placeholder for that field (a missing certifications field renders
"No certification recommendations available"); rendering is total, and the
last four conjuncts show each section is computed from its own field alone,
so the sections are checked independently of one another. -/
theorem absent_or_nonarray_sections_render_named_placeholders (r : RoadmapData) :
    ((r.skills_gap = JsField.absent ∨ r.skills_gap = JsField.malformed) →
      (renderRoadmap r).skillsGapView =
        SectionView.placeholder "No skills gap data available") ∧
    ((r.learning_path = JsField.absent ∨ r.learning_path = JsField.malformed) →
      (renderRoadmap r).learningPathView =
        SectionView.placeholder "No learning path data available") ∧
    ((r.certifications = JsField.absent ∨ r.certifications = JsField.malformed) →
      (renderRoadmap r).certificationsView =
        SectionView.placeholder "No certification recommendations available") ∧
    ((r.projects = JsField.absent ∨ r.projects = JsField.malformed) →
      (renderRoadmap r).projectsView =
        SectionView.placeholder "No project suggestions available") ∧
    (renderRoadmap r).skillsGapView = renderSkillsGapSection r.skills_gap ∧
    (renderRoadmap r).learningPathView = renderLearningPathSection r.learning_path ∧
    (renderRoadmap r).certificationsView = renderCertificationsSection r.certifications ∧
    (renderRoadmap r).projectsView = renderProjectsSection r.projects := by
  refine ⟨?_, ?_, ?_, ?_, rfl, rfl, rfl, rfl⟩ <;>
    rintro (h | h) <;>
    simp [renderRoadmap, renderSkillsGapSection, renderLearningPathSection,
      renderCertificationsSection, renderProjectsSection, h]

/-- C1 witness: a response with every section absent or non-array renders
all four named placeholders. -/
theorem absent_or_nonarray_sections_witness :
    (renderRoadmap
        { skills_gap := JsField.absent, learning_path := JsField.malformed,
          certifications := JsField.absent, projects := JsField.malformed }).skillsGapView =
      SectionView.placeholder "No skills gap data available" ∧
    (renderRoadmap
        { skills_gap := JsField.absent, learning_path := JsField.malformed,
          certifications := JsField.absent, projects := JsField.malformed }).learningPathView =
      SectionView.placeholder "No learning path data available" ∧
    (renderRoadmap
        { skills_gap := JsField.absent, learning_path := JsField.malformed,
          certifications := JsField.absent, projects := JsField.malformed }).certificationsView =
      SectionView.placeholder "No certification recommendations available" ∧
    (renderRoadmap
        { skills_gap := JsField.absent, learning_path := JsField.malformed,
          certifications := JsField.absent, projects := JsField.malformed }).projectsView =
      SectionView.placeholder "No project suggestions available" := by
  have h := absent_or_nonarray_sections_render_named_placeholders
    { skills_gap := JsField.absent, learning_path := JsField.malformed,
      certifications := JsField.absent, projects := JsField.malformed }
  exact ⟨h.1 (Or.inl rfl), h.2.1 (Or.inr rfl), h.2.2.1 (Or.inl rfl),
    h.2.2.2.1 (Or.inr rfl)⟩

/-- C9: a section field that is present and an array but empty renders the
same named placeholder as an entirely absent field, for each of the four
sections; a full roadmap render with four empty lists equals the render
with four absent fields. -/
theorem empty_section_indistinguishable_from_absent :
    renderSkillsGapSection (JsField.arr []) = renderSkillsGapSection JsField.absent ∧
    renderLearningPathSection (JsField.arr []) = renderLearningPathSection JsField.absent ∧
    renderCertificationsSection (JsField.arr []) = renderCertificationsSection JsField.absent ∧
    renderProjectsSection (JsField.arr []) = renderProjectsSection JsField.absent ∧
    renderSkillsGapSection (JsField.arr []) =
      SectionView.placeholder "No skills gap data available" ∧
    renderLearningPathSection (JsField.arr []) =
      SectionView.placeholder "No learning path data available" ∧
    renderCertificationsSection (JsField.arr []) =
      SectionView.placeholder "No certification recommendations available" ∧
    renderProjectsSection (JsField.arr []) =
      SectionView.placeholder "No project suggestions available" ∧
    renderRoadmap
        { skills_gap := JsField.arr [], learning_path := JsField.arr [],
          certifications := JsField.arr [], projects := JsField.arr [] } =
      renderRoadmap
        { skills_gap := JsField.absent, learning_path := JsField.absent,
          certifications := JsField.absent, projects := JsField.absent } :=
  ⟨rfl, rfl, rfl, rfl, rfl, rfl, rfl, rfl, rfl⟩

/-- C4: a skill-gap entry renders in the alert color `error.main` exactly
when its text begins with the prefix `Required:`; every other entry renders
in the informational color `info.main` — in particular
"Nice to have: Python" — with no further validation. -/
theorem skill_color_iff_required (s : String) :
    ((renderSkillEntry s).color = "error.main" ↔
      strStartsWith s "Required:" = true) ∧
    ((renderSkillEntry s).color ≠ "error.main" →
      (renderSkillEntry s).color = "info.main") ∧
    (renderSkillEntry "Required: Python").color = "error.main" ∧
    (renderSkillEntry "Nice to have: Python").color = "info.main" := by
  refine ⟨?_, ?_, by decide, by decide⟩
  · by_cases h : strStartsWith s "Required:" = true <;>
      simp [renderSkillEntry, h]
  · by_cases h : strStartsWith s "Required:" = true <;>
      simp [renderSkillEntry, h]

/-- C4 witness: instantiation at "Required: Python". -/
theorem skill_color_iff_required_witness :
    (renderSkillEntry "Required: Python").color = "error.main" :=
  ((skill_color_iff_required "Required: Python").1).2 (by decide)

/-- C5: every job card's progress indicator value is exactly score × 100
with no clamping (an out-of-range score 3/2 passes through as 150), and its
percentage text is the backend-provided match_percentage string verbatim;
a score of 73/100 yields progress value 73. -/
theorem job_card_progress_and_percentage (j : Job) :
    (renderJobCard j).progressValue = j.score * 100 ∧
    (renderJobCard j).percentText = j.match_percentage ∧
    (renderJobCard
        { job_id := "j1", title := "Data Analyst", company := "Acme",
          score := 73 / 100, match_percentage := "73%" }).progressValue = 73 ∧
    (renderJobCard
        { job_id := "j2", title := "Data Analyst", company := "Acme",
          score := 3 / 2, match_percentage := "150%" }).progressValue = 150 := by
  refine ⟨rfl, rfl, ?_, ?_⟩ <;> · show (_ : ℚ) * 100 = _; norm_num

/-- C6: an empty-array response from the job-matching endpoint renders the
no-matching-jobs view with zero job cards; the match-list query is enabled
only when the resume identifier is non-null; and a null identifier renders
nothing in every query state. -/
theorem job_list_empty_and_null_guard :
    (∀ (rid : String), optStringTruthy (some rid) = true →
      renderJobList (some rid) (JobsQueryState.success []) =
          JobListView.noMatchesView ∧
        cardCount (renderJobList (some rid) (JobsQueryState.success [])) = 0) ∧
    (∀ (rid : Option String), jobListEnabled rid = true → rid ≠ none) ∧
    (∀ (q : JobsQueryState), renderJobList none q = JobListView.nothingView) := by
  refine ⟨?_, ?_, ?_⟩
  · intro rid h
    constructor <;> simp [renderJobList, cardCount, h]
  · intro rid h
    cases rid with
    | none => simp [jobListEnabled, optStringTruthy] at h
    | some s => simp
  · intro q
    rfl

/-- C6 witness: instantiation at a concrete non-empty identifier, the null
identifier and the loading state. -/
theorem job_list_empty_and_null_guard_witness :
    (renderJobList (some "r1") (JobsQueryState.success []) =
        JobListView.noMatchesView ∧
      cardCount (renderJobList (some "r1") (JobsQueryState.success [])) = 0) ∧
    (jobListEnabled (some "r1") = true → (some "r1" : Option String) ≠ none) ∧
    renderJobList none JobsQueryState.loading = JobListView.nothingView :=
  ⟨job_list_empty_and_null_guard.1 "r1" (by decide),
    job_list_empty_and_null_guard.2.1 (some "r1"),
    job_list_empty_and_null_guard.2.2 JobsQueryState.loading⟩

/-- C7: with no file selected the submit button is disabled for every
pending state, and the upload handler issues no request (returns `none`);
the button is also disabled whenever a request is outstanding. -/
theorem no_file_no_upload_request :
    (∀ (isPending : Bool), uploadButtonDisabled none isPending = true) ∧
    handleUpload none = none ∧
    (∀ (file : Option JsFile), uploadButtonDisabled file true = true) := by
  refine ⟨fun isPending => rfl, rfl, fun file => ?_⟩
  cases file <;> rfl

/-- C8: the upload `onSuccess` handler invokes the completion callback
exactly once, with the response's id field; in particular a response with
id "abc" yields exactly the invocation list ["abc"]. -/
theorem upload_success_callback_once_with_id (d : UploadSuccessData) :
    callbackInvocations (uploadOnSuccess d) = [d.id] ∧
    (callbackInvocations (uploadOnSuccess d)).length = 1 ∧
    callbackInvocations (uploadOnSuccess { id := "abc" }) = ["abc"] :=
  ⟨rfl, rfl, rfl⟩

/-- C2: the roadmap result is cached under the key
('roadmap', resumeId, jobTitle) with a freshness window of five minutes
(300000 ms); while a cache entry under that key is younger than the window,
no fetch is issued for the key, whatever the enablement — so reopening the
dialog with the same inputs within five minutes issues no second network
request. -/
theorem roadmap_fresh_cache_hit_no_refetch (cache : List CacheEntry)
    (resumeId jobTitle : String) (e : CacheEntry) (now : Nat)
    (hfound : cacheLookup cache (roadmapQueryKey resumeId jobTitle) = some e)
    (hfresh : now < e.fetchedAt + roadmapStaleTime) :
    roadmapQueryKey resumeId jobTitle = ["roadmap", resumeId, jobTitle] ∧
    roadmapStaleTime = 5 * 60 * 1000 ∧
    ∀ (enabled : Bool),
      issuesFetch cache (roadmapQueryKey resumeId jobTitle) enabled now = false := by
  refine ⟨rfl, rfl, fun enabled => ?_⟩
  simp [issuesFetch, hfound, isFresh, hfresh]

/-- C2 witness: a concrete cache holding the key for ("r1", "Data Analyst")
fetched at time 1000 suppresses the fetch at time 2000. -/
theorem roadmap_fresh_cache_hit_witness :
    issuesFetch [{ key := ["roadmap", "r1", "Data Analyst"], fetchedAt := 1000 }]
        (roadmapQueryKey "r1" "Data Analyst") true 2000 = false :=
  (roadmap_fresh_cache_hit_no_refetch
      [{ key := ["roadmap", "r1", "Data Analyst"], fetchedAt := 1000 }]
      "r1" "Data Analyst"
      { key := ["roadmap", "r1", "Data Analyst"], fetchedAt := 1000 }
      2000 rfl (by decide)).2.2 true

/-- C3: the roadmap fetch is enabled exactly when the dialog is open and
both the resume identifier and the job title are non-empty; and whenever
the enablement is false — the dialog closed or an input empty — no fetch is
issued for the roadmap key, in any cache state and at any time. -/
theorem roadmap_enabled_iff_open_and_nonempty (dialogOpen : Bool)
    (resumeId jobTitle : String) :
    (roadmapEnabled dialogOpen resumeId jobTitle = true ↔
      dialogOpen = true ∧ resumeId ≠ "" ∧ jobTitle ≠ "") ∧
    (∀ (cache : List CacheEntry) (now : Nat),
      roadmapEnabled dialogOpen resumeId jobTitle = false →
      issuesFetch cache (roadmapQueryKey resumeId jobTitle)
          (roadmapEnabled dialogOpen resumeId jobTitle) now = false) := by
  constructor
  · simp [roadmapEnabled, jsTruthyString, and_assoc]
  · intro cache now h
    simp [issuesFetch, h]

/-- C3 witness: the enablement equivalence at open dialog with concrete
non-empty inputs, and fetch suppression with the dialog closed. -/
theorem roadmap_enabled_iff_witness :
    roadmapEnabled true "r1" "Data Analyst" = true ∧
    issuesFetch [] (roadmapQueryKey "r1" "Data Analyst")
        (roadmapEnabled false "r1" "Data Analyst") 0 = false :=
  ⟨((roadmap_enabled_iff_open_and_nonempty true "r1" "Data Analyst").1).2
      ⟨rfl, by decide, by decide⟩,
    (roadmap_enabled_iff_open_and_nonempty false "r1" "Data Analyst").2 [] 0 rfl⟩

/-- C10: the dialog's Close button is disabled exactly while the roadmap
query is loading; once the query settles it is enabled in the error view
and in every success view. -/
theorem close_button_disabled_iff_loading :
    closeButtonDisabled RoadmapQueryState.loading = true ∧
    closeButtonDisabled RoadmapQueryState.failed = false ∧
    ∀ (d : RoadmapData), closeButtonDisabled (RoadmapQueryState.success d) = false :=
  ⟨rfl, rfl, fun _ => rfl⟩

end CareerNavigator
